import Mathlib

/-!
Verification of the FlightSim lift-coefficient model
(`src/AeroModel/AeroModelCLift.cpp`, class `CAeroModelCoeffLift`).

The embedding models the C `AAC_FLOAT` values as exact rationals (`ℚ`), so
all arithmetic identities below are about the arithmetic structure of the
computation.  The interpolation engine (`Interp.h` / `Interp1D` / `Interp3D`)
and the table-construction layer are not part of the two files under
`src/`; those definitions are modelled from the specification and marked as
such in their doc comments.  Everything else is translated directly from
`AeroModelCLift.cpp`.
-/

namespace FlightSim

/-- 1-D lookup table (`AAC_LT1D`): one axis plus the result samples.  The C
struct also carries a sample count which the source always initializes to the
array length (a `sizeof` quotient), so the embedding keeps just the lists. -/
structure LT1D where
  pfX : List ℚ
  pfResult : List ℚ

/-- 3-D lookup table (`AAC_LT3D`): three axes plus the flattened result
array.  As for `LT1D`, the counts of the C struct are the list lengths. -/
structure LT3D where
  pfX : List ℚ
  pfY : List ℚ
  pfZ : List ℚ
  pfResult : List ℚ

/-- Modelled from the spec: the bracketing-interval search of the
interpolation engine (`Interp.h` is not under `src/`).  Returns the index
`lo` of the interval `[axis[lo], axis[lo+1]]` used for the query coordinate,
clamped into `[0, n-2]`: coordinates below the first interior sample map to
interval `0` and coordinates at or beyond the end map to the last interval. -/
def bracketLo : List ℚ → ℚ → Nat
  | _ :: b :: c :: rest, x => if x < b then 0 else bracketLo (b :: c :: rest) x + 1
  | _, _ => 0

/-- The `MAX` macro of the source headers: `(a) > (b) ? (a) : (b)`. -/
def MAXf (a b : ℚ) : ℚ := if b < a then a else b

/-- The `MIN` macro of the source headers: `(a) < (b) ? (a) : (b)`. -/
def MINf (a b : ℚ) : ℚ := if a < b then a else b

/-- The `ABS` macro of the source headers. -/
def ABSf (a : ℚ) : ℚ := if a < 0 then -a else a

/-- Clamp an interpolation fraction into `[0, 1]` (the clamp-to-edge
out-of-range policy: weight pinned to `0` or `1` at the boundary). -/
def clampT (t : ℚ) : ℚ := MAXf 0 (MINf 1 t)

/-- Modelled from the spec: per-axis interval selection.  Produces the low
bracket index and the fractional position `t` within the bracket; with the
extrapolation flag off, `t` is clamped into `[0, 1]`.  A degenerate axis of
length `≤ 1` always takes index `0` with weight `t = 0`, i.e. full weight on
the single sample and no division. -/
def axisT (axis : List ℚ) (x : ℚ) (bExtrap : Bool) : Nat × ℚ :=
  if axis.length ≤ 1 then (0, 0)
  else
    let lo := bracketLo axis x
    let x0 := axis.getD lo 0
    let x1 := axis.getD (lo + 1) 0
    let t := (x - x0) / (x1 - x0)
    (lo, if bExtrap then t else clampT t)

/-- Linear blend `a + t * (b - a)` between two samples. -/
def lerp (t a b : ℚ) : ℚ := a + t * (b - a)

/-- Modelled from the spec: 1-D linear table interpolation (`Interp1D` of
`Interp.h`, not under `src/`).  The call site in `Compute` passes no
extrapolation flag; the out-of-range policy is clamp-to-edge. -/
def Interp1D (tbl : LT1D) (x : ℚ) : ℚ :=
  let p := axisT tbl.pfX x false
  lerp p.2 (tbl.pfResult.getD p.1 0) (tbl.pfResult.getD (p.1 + 1) 0)

/-- Modelled from the spec: 3-D (trilinear) table interpolation (`Interp3D`
of `Interp.h`, not under `src/`).  The result array is flattened row-major
with the first axis varying slowest; the eight corner values of the bracket
hypercube are blended by nested linear interpolation with the per-axis
fractions, each axis carrying its own extrapolate/clamp flag. -/
def Interp3D (tbl : LT3D) (x y z : ℚ) (bX bY bZ : Bool) : ℚ :=
  let px := axisT tbl.pfX x bX
  let py := axisT tbl.pfY y bY
  let pz := axisT tbl.pfZ z bZ
  let ny := tbl.pfY.length
  let nz := tbl.pfZ.length
  let r := fun i j k => tbl.pfResult.getD ((i * ny + j) * nz + k) 0
  lerp px.2
    (lerp py.2
      (lerp pz.2 (r px.1 py.1 pz.1) (r px.1 py.1 (pz.1 + 1)))
      (lerp pz.2 (r px.1 (py.1 + 1) pz.1) (r px.1 (py.1 + 1) (pz.1 + 1))))
    (lerp py.2
      (lerp pz.2 (r (px.1 + 1) py.1 pz.1) (r (px.1 + 1) py.1 (pz.1 + 1)))
      (lerp pz.2 (r (px.1 + 1) (py.1 + 1) pz.1) (r (px.1 + 1) (py.1 + 1) (pz.1 + 1))))

/-- Last sample of an axis (`0` for an empty axis). -/
def axLast : List ℚ → ℚ
  | [] => 0
  | [a] => a
  | _ :: b :: rest => axLast (b :: rest)

/-- Modelled from the spec: the construction-time error taxonomy of the
interpolation-table layer (`InvalidTableShape` for an axis/result size
mismatch; axis violations — empty axis or non-monotonic samples — are
likewise rejected at construction). -/
inductive TableError where
  | InvalidTableShape : TableError
  | InvalidAxis : TableError

/-- Modelled from the spec: 1-D table construction.  An axis must be
non-empty and strictly monotonic increasing; the result array length must
equal the axis length, otherwise construction fails with
`InvalidTableShape` rather than silently truncating. -/
def mkLT1D (aX r : List ℚ) : Except TableError LT1D :=
  if 1 ≤ aX.length ∧ aX.Chain' (· < ·) then
    if r.length = aX.length then .ok ⟨aX, r⟩ else .error .InvalidTableShape
  else .error .InvalidAxis

/-- Modelled from the spec: 3-D table construction.  All three axes must be
non-empty and strictly monotonic increasing; the flattened result array
length must equal the product of the axis lengths. -/
def mkLT3D (aX aY aZ r : List ℚ) : Except TableError LT3D :=
  if (1 ≤ aX.length ∧ aX.Chain' (· < ·)) ∧ (1 ≤ aY.length ∧ aY.Chain' (· < ·)) ∧
      (1 ≤ aZ.length ∧ aZ.Chain' (· < ·)) then
    if r.length = aX.length * aY.length * aZ.length then .ok ⟨aX, aY, aZ, r⟩
    else .error .InvalidTableShape
  else .error .InvalidAxis

/-- A construction attempt was rejected (produced an error, not a table). -/
def isRejected {α : Type} : Except TableError α → Bool
  | .error _ => true
  | .ok _ => false

/-! ### Static table data of `CAeroModelCoeffLift` (from `AeroModelCLift.cpp`) -/

/-- Icing-effects axis `s_axisIceAlphaDeg` (angle of attack, degrees). -/
def s_axisIceAlphaDeg : List ℚ := [0, 4.00, 8.00, 10.00, 12.00]

/-- Icing-effects results `s_resultIce` (lift loss). -/
def s_resultIce : List ℚ := [0, -0.03, -0.21, -0.37, -0.39]

/-- Icing-effects 1-D table `s_tableIce`. -/
def s_tableIce : LT1D := ⟨s_axisIceAlphaDeg, s_resultIce⟩

/-- Basic-lift alpha axis `s_axisBaAlpha` (angle of attack, degrees). -/
def s_axisBaAlpha : List ℚ :=
  [-8.0, -4.0, 0.0, 4.0, 8.0, 10.0, 12.0, 14.0, 16.0, 20.0]

/-- Basic-lift symmetric-thrust axis `s_axisBaTcx`. -/
def s_axisBaTcx : List ℚ := [0.0, 0.1, 0.2, 0.6]

/-- Basic-lift flap-deflection axis `s_axisBaFlap` (percent). -/
def s_axisBaFlap : List ℚ := [0.0, 100.0]

/-- Basic-lift flattened results `s_resultBa` (10 × 4 × 2 grid). -/
def s_resultBa : List ℚ :=
  [-0.52, -0.08, 0.35, 0.70, 1.06, 1.14, 1.20, 1.21, 1.12, 1.04,
   -0.49, -0.04, 0.40, 0.76, 1.13, 1.27, 1.38, 1.39, 1.34, 1.24,
   -0.47, -0.03, 0.42, 0.80, 1.19, 1.35, 1.47, 1.48, 1.44, 1.33,
   -0.46,  0.0,  0.44, 0.86, 1.26, 1.44, 1.58, 1.62, 1.60, 1.50,
    0.07,  0.46, 0.85, 1.24, 1.50, 1.55, 1.53, 1.40, 1.22, 1.05,
    0.14,  0.54, 0.95, 1.34, 1.60, 1.66, 1.67, 1.54, 1.38, 1.24,
    0.17,  0.60, 1.02, 1.42, 1.71, 1.77, 1.80, 1.70, 1.57, 1.38,
    0.32,  0.78, 1.23, 1.62, 1.93, 1.99, 2.02, 1.96, 1.84, 1.61]

/-- Basic-lift 3-D table `s_tableBa`. -/
def s_tableBa : LT3D := ⟨s_axisBaAlpha, s_axisBaTcx, s_axisBaFlap, s_resultBa⟩

/-! ### Shared state and model state -/

/-- The fields of the shared aircraft-data blackboard (`s_pData`) that
`CAeroModelCoeffLift::Compute` reads or writes. -/
structure AircraftData where
  dAlphaB_d : ℚ
  dAlphaDot_rps : ℚ
  dQs_rps : ℚ
  fDeltaF_pct : ℚ
  fDfavg_pct : ℚ
  fKIce : ℚ
  fCLift : ℚ

/-- The fields of the shared coefficient-data blackboard (`s_pCoeffData`)
that `CAeroModelCoeffLift::Compute` reads or writes. -/
structure CoeffData where
  fTcx : ℚ
  fCHat : ℚ
  fCmElev : ℚ
  fTcd : ℚ
  fHGear : ℚ
  fClStar : ℚ

/-- Member partials of `CAeroModelCoeffLift` plus the inherited aggregate
member `m_fCoeff` of the `CAeroModelCoeff` base. -/
structure LiftModel where
  m_fClBa : ℚ
  m_fClDyn : ℚ
  m_fClElev : ℚ
  m_fClAth : ℚ
  m_fClGe : ℚ
  m_fClFF : ℚ
  m_fClIce : ℚ
  m_fClBias : ℚ
  m_fCoeff : ℚ

/-- The named physical constants of `C90Defs.h` used by `Compute` (the
header is not under `src/`, so the constants stay symbolic parameters). -/
structure C90Consts where
  C_CLAD : ℚ
  C_CLQ : ℚ
  C_XCOLH : ℚ
  C_CLATO : ℚ
  C_CLATA : ℚ
  C_CLATF : ℚ
  C_CLGEO : ℚ
  C_BWREF : ℚ
  C_CLFFO : ℚ
  C_CLFFA : ℚ

/-- The mutable memory `Compute` can touch: the two blackboards, the lift
member fields of the object, and the static tables (statics are ordinary process
memory in the source, carried here so that leaving them unchanged is a
provable statement). -/
structure SimState where
  data : AircraftData
  coeff : CoeffData
  lift : LiftModel
  tBa : LT3D
  tIce : LT1D

/-- `CAeroModelCoeffLift::Compute` from `AeroModelCLift.cpp`, translated
statement by statement: the seven partial terms, the aggregate `m_fCoeff`,
the star sub-sum published to `fClStar`, the aggregate published to
`fCLift`, and the boolean validity result `bValid` returned to the caller. -/
def Compute (k : C90Consts) (s : SimState) : Bool × SimState :=
  let m_fClBa := Interp3D s.tBa s.data.dAlphaB_d s.coeff.fTcx s.data.fDeltaF_pct
                   false false false
  let m_fClDyn := ((k.C_CLAD * s.data.dAlphaDot_rps) +
                   (k.C_CLQ * s.data.dQs_rps)) * s.coeff.fCHat
  let m_fClElev := -s.coeff.fCmElev * k.C_XCOLH
  let m_fClAth := ((k.C_CLATO + k.C_CLATA * s.data.dAlphaB_d) +
                   k.C_CLATF * s.data.fDeltaF_pct / 100) * (ABSf s.coeff.fTcd / 0.4)
  let fGE := MAXf 0 (1 - (2 * s.coeff.fHGear / k.C_BWREF))
  let m_fClGe := k.C_CLGEO * fGE
  let fldfo := (s.data.fDfavg_pct - s.data.fDeltaF_pct) * 0.04
  let clff1 := k.C_CLFFO + (k.C_CLFFA * s.data.dAlphaB_d)
  let m_fClFF := clff1 * fldfo
  let clIce := Interp1D s.tIce s.data.dAlphaB_d
  let m_fClIce := clIce * s.data.fKIce
  let m_fCoeff := m_fClBa + m_fClDyn + m_fClElev + m_fClAth + m_fClGe +
                  m_fClFF + m_fClIce + s.lift.m_fClBias
  (true,
    { s with
      lift := { m_fClBa := m_fClBa, m_fClDyn := m_fClDyn, m_fClElev := m_fClElev,
                m_fClAth := m_fClAth, m_fClGe := m_fClGe, m_fClFF := m_fClFF,
                m_fClIce := m_fClIce, m_fClBias := s.lift.m_fClBias,
                m_fCoeff := m_fCoeff }
      coeff := { s.coeff with fClStar := m_fClBa + m_fClDyn }
      data := { s.data with fCLift := m_fCoeff } })

/-! ### Helper lemmas about the clamp-to-edge policy -/

theorem axLast_cons_cons (a b : ℚ) (l : List ℚ) :
    axLast (a :: b :: l) = axLast (b :: l) := rfl

theorem le_axLast_of_chain (l : List ℚ) : ∀ (a : ℚ), (a :: l).Chain' (· < ·) →
    a ≤ axLast (a :: l) := by
  induction l with
  | nil => intro a _; exact le_refl a
  | cons b t ih =>
    intro a h
    obtain ⟨hab, ht⟩ := List.chain'_cons.mp h
    calc a ≤ b := hab.le
    _ ≤ axLast (b :: t) := ih b ht

theorem bracketLo_le_head (x a b : ℚ) (l : List ℚ)
    (hc : (a :: b :: l).Chain' (· < ·)) (hx : x ≤ a) :
    bracketLo (a :: b :: l) x = 0 := by
  have hab : a < b := (List.chain'_cons.mp hc).1
  cases l with
  | nil => rfl
  | cons c t => simp [bracketLo, lt_of_le_of_lt hx hab]

theorem bracketLo_ge_last (x : ℚ) : ∀ (a b : ℚ) (l : List ℚ),
    (a :: b :: l).Chain' (· < ·) → axLast (a :: b :: l) ≤ x →
    bracketLo (a :: b :: l) x = l.length := by
  intro a b l
  induction l generalizing a b with
  | nil => intro _ _; rfl
  | cons c t ih =>
    intro hc hx
    obtain ⟨hab, htail⟩ := List.chain'_cons.mp hc
    have hb : b ≤ axLast (a :: b :: c :: t) := le_axLast_of_chain (c :: t) b htail
    have hnb : ¬ x < b := not_lt.mpr (hb.trans hx)
    have hrec : bracketLo (b :: c :: t) x = t.length := ih b c htail hx
    simp [bracketLo, hnb, hrec]

theorem getD_last_pair : ∀ (a b : ℚ) (l : List ℚ), (a :: b :: l).Chain' (· < ·) →
    (a :: b :: l).getD l.length 0 < (a :: b :: l).getD (l.length + 1) 0 ∧
    (a :: b :: l).getD (l.length + 1) 0 = axLast (a :: b :: l) := by
  intro a b l
  induction l generalizing a b with
  | nil => intro hc; exact ⟨(List.chain'_cons.mp hc).1, rfl⟩
  | cons c t ih =>
    intro hc
    have htail := (List.chain'_cons.mp hc).2
    have h := ih b c htail
    simp only [List.length_cons, List.getD_cons_succ, axLast_cons_cons]
    exact h

theorem clampT_of_nonpos (t : ℚ) (ht : t ≤ 0) : clampT t = 0 := by
  have h1 : ¬ (1 : ℚ) < t := by linarith
  simp only [clampT, MINf, MAXf, if_neg h1]
  split_ifs with h2
  · rfl
  · linarith

theorem clampT_of_one_le (t : ℚ) (ht : 1 ≤ t) : clampT t = 1 := by
  simp only [clampT, MINf, MAXf]
  split_ifs with h1 h2 <;> first | rfl | linarith

theorem axisT_le_head (a b : ℚ) (l : List ℚ) (hc : (a :: b :: l).Chain' (· < ·))
    (x : ℚ) (hx : x ≤ a) : axisT (a :: b :: l) x false = (0, 0) := by
  have hab : a < b := (List.chain'_cons.mp hc).1
  have hbr : bracketLo (a :: b :: l) x = 0 := bracketLo_le_head x a b l hc hx
  have hlen : ¬ (a :: b :: l).length ≤ 1 := by simp
  have ht : (x - a) / (b - a) ≤ 0 :=
    div_nonpos_iff.mpr (Or.inr ⟨by linarith, by linarith⟩)
  simp only [axisT, if_neg hlen, hbr, List.getD_cons_zero, List.getD_cons_succ,
    Bool.false_eq_true, if_false]
  rw [clampT_of_nonpos _ ht]

theorem axisT_ge_last (a b : ℚ) (l : List ℚ) (hc : (a :: b :: l).Chain' (· < ·))
    (x : ℚ) (hx : axLast (a :: b :: l) ≤ x) :
    axisT (a :: b :: l) x false = (l.length, 1) := by
  have hbr : bracketLo (a :: b :: l) x = l.length := bracketLo_ge_last x a b l hc hx
  obtain ⟨hlt, hlast⟩ := getD_last_pair a b l hc
  have hlen : ¬ (a :: b :: l).length ≤ 1 := by simp
  have ht : 1 ≤ (x - (a :: b :: l).getD l.length 0) /
      ((a :: b :: l).getD (l.length + 1) 0 - (a :: b :: l).getD l.length 0) := by
    rw [one_le_div (by linarith)]
    have hle : (a :: b :: l).getD (l.length + 1) 0 ≤ x := by rw [hlast]; exact hx
    linarith
  simp only [axisT, if_neg hlen, hbr, Bool.false_eq_true, if_false]
  rw [clampT_of_one_le _ ht]

theorem axisT_clamp_low (axis : List ℚ) (h2 : 2 ≤ axis.length)
    (hc : axis.Chain' (· < ·)) (x : ℚ) (hx : x ≤ axis.getD 0 0) :
    axisT axis x false = axisT axis (axis.getD 0 0) false := by
  match axis, h2 with
  | a :: b :: l, _ =>
    rw [axisT_le_head a b l hc x (by simpa using hx),
      axisT_le_head a b l hc _ (by simp)]

theorem axisT_clamp_high (axis : List ℚ) (h2 : 2 ≤ axis.length)
    (hc : axis.Chain' (· < ·)) (x : ℚ) (hx : axLast axis ≤ x) :
    axisT axis x false = axisT axis (axLast axis) false := by
  match axis, h2 with
  | a :: b :: l, _ =>
    rw [axisT_ge_last a b l hc x hx, axisT_ge_last a b l hc _ (le_refl _)]

theorem interp3D_congr_x (tbl : LT3D) (x x' y z : ℚ)
    (h : axisT tbl.pfX x false = axisT tbl.pfX x' false) :
    Interp3D tbl x y z false false false = Interp3D tbl x' y z false false false := by
  simp only [Interp3D, h]

theorem interp3D_congr_y (tbl : LT3D) (x y y' z : ℚ)
    (h : axisT tbl.pfY y false = axisT tbl.pfY y' false) :
    Interp3D tbl x y z false false false = Interp3D tbl x y' z false false false := by
  simp only [Interp3D, h]

theorem interp3D_congr_z (tbl : LT3D) (x y z z' : ℚ)
    (h : axisT tbl.pfZ z false = axisT tbl.pfZ z' false) :
    Interp3D tbl x y z false false false = Interp3D tbl x y z' false false false := by
  simp only [Interp3D, h]

theorem MAXf_zero_of_nonpos (t : ℚ) (ht : t ≤ 0) : MAXf 0 t = 0 := by
  simp only [MAXf]
  split_ifs with h
  · rfl
  · linarith

theorem MAXf_zero_nonneg (t : ℚ) : 0 ≤ MAXf 0 t := by
  simp only [MAXf]
  split_ifs with h
  · exact le_refl 0
  · linarith

/-! ### Concrete fixtures (a zeroed shared-state snapshot and constants) -/

/-- All-zero constants (the symbolic `C90Defs.h` parameters instantiated). -/
def kZero : C90Consts := ⟨0, 0, 0, 0, 0, 0, 0, 0, 0, 0⟩

/-- The member state established by the `CAeroModelCoeffLift` constructor:
every partial (and the bias and the aggregate) zeroed. -/
def liftZero : LiftModel := ⟨0, 0, 0, 0, 0, 0, 0, 0, 0⟩

/-- A zeroed aircraft-data blackboard. -/
def dataZero : AircraftData := ⟨0, 0, 0, 0, 0, 0, 0⟩

/-- A zeroed coefficient-data blackboard. -/
def coeffZero : CoeffData := ⟨0, 0, 0, 0, 0, 0⟩

/-- A concrete shared-state snapshot: zeroed blackboards, freshly
constructed lift object, and the static tables of the source. -/
def sZero : SimState := ⟨dataZero, coeffZero, liftZero, s_tableBa, s_tableIce⟩

/-- Constants for the ground-effect witness: reference span 10, geometry
constant 1, everything else zero. -/
def kGe : C90Consts := { kZero with C_CLGEO := 1, C_BWREF := 10 }

/-- A snapshot with gear height 7 (above half the reference span 10). -/
def sGe : SimState := { sZero with coeff := { coeffZero with fHGear := 7 } }

/-! ### The claims -/

/-- Claim C1: for every shared-state snapshot, `Compute` sets the lift
aggregate to the arithmetic sum of the seven partial terms (basic, dynamic,
elevator, asymmetric-thrust, ground-effect, flap-failure, icing) plus the
constant bias term, and publishes that aggregate to the lift
field `fCLift`. -/
theorem compute_aggregate_sum (k : C90Consts) (s : SimState) :
    (Compute k s).2.data.fCLift =
      (Compute k s).2.lift.m_fClBa + (Compute k s).2.lift.m_fClDyn +
      (Compute k s).2.lift.m_fClElev + (Compute k s).2.lift.m_fClAth +
      (Compute k s).2.lift.m_fClGe + (Compute k s).2.lift.m_fClFF +
      (Compute k s).2.lift.m_fClIce + (Compute k s).2.lift.m_fClBias :=
  rfl

/-- Claim C2: with the clamp policy, a query below the first or above the
last sample of an axis yields exactly the result at the nearest boundary
sample of that axis (shown for each of the three axes of the trilinear
lookup); moreover the basic-lift term of `Compute` is the trilinear lookup
with clamping (`false` extrapolation flag) on all three axes. -/
theorem interp3D_clamp_boundary (tbl : LT3D) (x y z : ℚ)
    (hcX : tbl.pfX.Chain' (· < ·)) (hcY : tbl.pfY.Chain' (· < ·))
    (hcZ : tbl.pfZ.Chain' (· < ·)) (h2X : 2 ≤ tbl.pfX.length)
    (h2Y : 2 ≤ tbl.pfY.length) (h2Z : 2 ≤ tbl.pfZ.length) :
    ((x ≤ tbl.pfX.getD 0 0 →
        Interp3D tbl x y z false false false =
          Interp3D tbl (tbl.pfX.getD 0 0) y z false false false) ∧
      (axLast tbl.pfX ≤ x →
        Interp3D tbl x y z false false false =
          Interp3D tbl (axLast tbl.pfX) y z false false false)) ∧
    ((y ≤ tbl.pfY.getD 0 0 →
        Interp3D tbl x y z false false false =
          Interp3D tbl x (tbl.pfY.getD 0 0) z false false false) ∧
      (axLast tbl.pfY ≤ y →
        Interp3D tbl x y z false false false =
          Interp3D tbl x (axLast tbl.pfY) z false false false)) ∧
    ((z ≤ tbl.pfZ.getD 0 0 →
        Interp3D tbl x y z false false false =
          Interp3D tbl x y (tbl.pfZ.getD 0 0) false false false) ∧
      (axLast tbl.pfZ ≤ z →
        Interp3D tbl x y z false false false =
          Interp3D tbl x y (axLast tbl.pfZ) false false false)) ∧
    ∀ (k : C90Consts) (s : SimState),
      (Compute k s).2.lift.m_fClBa =
        Interp3D s.tBa s.data.dAlphaB_d s.coeff.fTcx s.data.fDeltaF_pct
          false false false := by
  refine ⟨⟨fun hx => interp3D_congr_x tbl x _ y z (axisT_clamp_low _ h2X hcX x hx),
      fun hx => interp3D_congr_x tbl x _ y z (axisT_clamp_high _ h2X hcX x hx)⟩,
    ⟨fun hy => interp3D_congr_y tbl x y _ z (axisT_clamp_low _ h2Y hcY y hy),
      fun hy => interp3D_congr_y tbl x y _ z (axisT_clamp_high _ h2Y hcY y hy)⟩,
    ⟨fun hz => interp3D_congr_z tbl x y z _ (axisT_clamp_low _ h2Z hcZ z hz),
      fun hz => interp3D_congr_z tbl x y z _ (axisT_clamp_high _ h2Z hcZ z hz)⟩,
    fun _ _ => rfl⟩

/-- Claim C2 witness: applying the clamp-boundary theorem to the concrete
basic-lift table at an alpha of `-100` (below the first alpha sample `-8`). -/
theorem interp3D_clamp_boundary_w :
    Interp3D s_tableBa (-100) (1/20) 50 false false false =
      Interp3D s_tableBa (-8) (1/20) 50 false false false := by
  have h :=
    (interp3D_clamp_boundary s_tableBa (-100) (1/20) 50
        (by norm_num [s_tableBa, s_axisBaAlpha, List.chain'_cons, List.chain'_singleton])
        (by norm_num [s_tableBa, s_axisBaTcx, List.chain'_cons, List.chain'_singleton])
        (by norm_num [s_tableBa, s_axisBaFlap, List.chain'_cons, List.chain'_singleton])
        (by simp [s_tableBa, s_axisBaAlpha])
        (by simp [s_tableBa, s_axisBaTcx])
        (by simp [s_tableBa, s_axisBaFlap])).1.1
      (by norm_num [s_tableBa, s_axisBaAlpha])
  have e : s_tableBa.pfX.getD 0 0 = -8 := by norm_num [s_tableBa, s_axisBaAlpha]
  rw [e] at h
  exact h

/-- Claim C3 counterexample: on the icing table (axis `[0,4,8,10,12]`,
results `[0,-0.03,-0.21,-0.37,-0.39]`), `Interp1D` at `6.0` does not equal
`-0.053` to tolerance `1e-6` — the coordinate `6.0` lies in the bracket
`[4, 8]`, not `[8, 10]`, so the claimed blend between the 8 and 10 samples
is the wrong interval (and the claimed formula evaluates to `-0.05`, not
`-0.053`, in any case). -/
theorem interp1D_ice_six_counterexample :
    s_tableIce.pfX = [0, 4, 8, 10, 12] ∧
    s_tableIce.pfResult = [0, -0.03, -0.21, -0.37, -0.39] ∧
    ¬ |Interp1D s_tableIce 6 - (-0.053)| ≤ 1 / 1000000 := by
  refine ⟨by norm_num [s_tableIce, s_axisIceAlphaDeg], rfl, ?_⟩
  norm_num [Interp1D, axisT, bracketLo, s_tableIce, s_axisIceAlphaDeg,
    s_resultIce, lerp, clampT, MAXf, MINf]
  rw [abs_of_nonneg (by norm_num)]
  norm_num

/-- Claim C3 (amended): on the icing table, `Interp1D` at `6.0` with
clamping yields the linear blend between the bracketing samples 4 and 8,
namely `-0.03 + (6-4)/(8-4) × (-0.21 - (-0.03)) = -0.12`, exactly (and in
particular to tolerance `1e-6`). -/
theorem interp1D_ice_six :
    Interp1D s_tableIce 6 = -0.03 + (6 - 4) / (8 - 4) * (-0.21 - (-0.03)) ∧
    |Interp1D s_tableIce 6 - (-0.12)| ≤ 1 / 1000000 := by
  constructor <;>
    norm_num [Interp1D, axisT, bracketLo, s_tableIce, s_axisIceAlphaDeg,
      s_resultIce, lerp, clampT, MAXf, MINf]

/-- Claim C4 counterexample: at the zeroed snapshot the value `Compute`
returns to its caller is the boolean validity flag `TRUE`, while the
aggregate lift coefficient at that snapshot is `1.38` — a value that is
neither `TRUE` (`1`) nor `FALSE` (`0`) — so the return value is not the
aggregate coefficient. -/
theorem compute_return_counterexample :
    (Compute kZero sZero).1 = true ∧
    (Compute kZero sZero).2.data.fCLift = 138 / 100 ∧
    (138 : ℚ) / 100 ≠ 1 ∧ (138 : ℚ) / 100 ≠ 0 := by
  refine ⟨rfl, ?_, by norm_num, by norm_num⟩
  norm_num [Compute, Interp3D, Interp1D, axisT, bracketLo, lerp, clampT,
    MAXf, MINf, ABSf, kZero, sZero, dataZero, coeffZero, liftZero,
    s_tableBa, s_tableIce, s_axisBaAlpha, s_axisBaTcx, s_axisBaFlap,
    s_resultBa, s_axisIceAlphaDeg, s_resultIce]

/-- Claim C4 (amended): `Compute` returns the boolean validity flag `TRUE`
to its caller; the aggregate coefficient (the sum of all partials plus
bias) is not the return value but is stored in the retained member
`m_fCoeff` and published to the lift field of the shared state, `fCLift`. -/
theorem compute_returns_flag_publishes_aggregate (k : C90Consts) (s : SimState) :
    (Compute k s).1 = true ∧
    (Compute k s).2.lift.m_fCoeff =
      (Compute k s).2.lift.m_fClBa + (Compute k s).2.lift.m_fClDyn +
      (Compute k s).2.lift.m_fClElev + (Compute k s).2.lift.m_fClAth +
      (Compute k s).2.lift.m_fClGe + (Compute k s).2.lift.m_fClFF +
      (Compute k s).2.lift.m_fClIce + (Compute k s).2.lift.m_fClBias ∧
    (Compute k s).2.data.fCLift = (Compute k s).2.lift.m_fCoeff :=
  ⟨rfl, rfl, rfl⟩

/-- Claim C5: after every call to `Compute`, the "star" value published to
the shared state (`fClStar`) equals exactly the sum of the basic
(rigid-body) term and the dynamic term only. -/
theorem compute_clstar_sum (k : C90Consts) (s : SimState) :
    (Compute k s).2.coeff.fClStar =
      (Compute k s).2.lift.m_fClBa + (Compute k s).2.lift.m_fClDyn :=
  rfl

/-- Claim C6: for any fixed snapshot, changing only the ice-accretion
factor from 0 to 1 changes the aggregate by exactly the contribution of the icing term
(the 1-D alpha interpolation value) and changes no other
partial term; with ice factor 0 the icing term is exactly zero. -/
theorem compute_ice_factor_delta (k : C90Consts) (s : SimState) :
    ((Compute k { s with data := { s.data with fKIce := 1 } }).2.data.fCLift -
        (Compute k { s with data := { s.data with fKIce := 0 } }).2.data.fCLift =
        Interp1D s.tIce s.data.dAlphaB_d) ∧
    (Compute k { s with data := { s.data with fKIce := 0 } }).2.lift.m_fClIce = 0 ∧
    ((Compute k { s with data := { s.data with fKIce := 1 } }).2.lift.m_fClIce -
        (Compute k { s with data := { s.data with fKIce := 0 } }).2.lift.m_fClIce =
        Interp1D s.tIce s.data.dAlphaB_d) ∧
    (Compute k { s with data := { s.data with fKIce := 1 } }).2.lift.m_fClBa =
      (Compute k { s with data := { s.data with fKIce := 0 } }).2.lift.m_fClBa ∧
    (Compute k { s with data := { s.data with fKIce := 1 } }).2.lift.m_fClDyn =
      (Compute k { s with data := { s.data with fKIce := 0 } }).2.lift.m_fClDyn ∧
    (Compute k { s with data := { s.data with fKIce := 1 } }).2.lift.m_fClElev =
      (Compute k { s with data := { s.data with fKIce := 0 } }).2.lift.m_fClElev ∧
    (Compute k { s with data := { s.data with fKIce := 1 } }).2.lift.m_fClAth =
      (Compute k { s with data := { s.data with fKIce := 0 } }).2.lift.m_fClAth ∧
    (Compute k { s with data := { s.data with fKIce := 1 } }).2.lift.m_fClGe =
      (Compute k { s with data := { s.data with fKIce := 0 } }).2.lift.m_fClGe ∧
    (Compute k { s with data := { s.data with fKIce := 1 } }).2.lift.m_fClFF =
      (Compute k { s with data := { s.data with fKIce := 0 } }).2.lift.m_fClFF ∧
    (Compute k { s with data := { s.data with fKIce := 1 } }).2.lift.m_fClBias =
      (Compute k { s with data := { s.data with fKIce := 0 } }).2.lift.m_fClBias := by
  refine ⟨?_, ?_, ?_, rfl, rfl, rfl, rfl, rfl, rfl, rfl⟩ <;>
    simp [Compute]

/-- Claim C7: the ground-effect term equals the geometry constant times
`MAX(0, 1 − 2·gear-height / reference-span)`; at gear height equal to half
the reference span it is exactly zero, for every gear height at or above
that it remains exactly zero, and (for a nonnegative geometry constant) it
is never negative. -/
theorem compute_ground_effect (k : C90Consts) (s : SimState)
    (hb : 0 < k.C_BWREF) (hg : 0 ≤ k.C_CLGEO) :
    ((Compute k s).2.lift.m_fClGe =
      k.C_CLGEO * MAXf 0 (1 - (2 * s.coeff.fHGear / k.C_BWREF))) ∧
    (s.coeff.fHGear = k.C_BWREF / 2 → (Compute k s).2.lift.m_fClGe = 0) ∧
    (k.C_BWREF / 2 ≤ s.coeff.fHGear → (Compute k s).2.lift.m_fClGe = 0) ∧
    0 ≤ (Compute k s).2.lift.m_fClGe := by
  have hb' : k.C_BWREF ≠ 0 := ne_of_gt hb
  have hval : (Compute k s).2.lift.m_fClGe =
      k.C_CLGEO * MAXf 0 (1 - (2 * s.coeff.fHGear / k.C_BWREF)) := rfl
  refine ⟨hval, ?_, ?_, ?_⟩
  · intro hh
    rw [hval, hh]
    have h2 : 2 * (k.C_BWREF / 2) / k.C_BWREF = 1 := by field_simp
    rw [h2]
    rw [MAXf_zero_of_nonpos _ (by norm_num)]
    exact mul_zero _
  · intro hh
    have h1 : 1 ≤ 2 * s.coeff.fHGear / k.C_BWREF :=
      (one_le_div hb).mpr (by linarith)
    rw [hval, MAXf_zero_of_nonpos _ (by linarith)]
    exact mul_zero _
  · rw [hval]
    exact mul_nonneg hg (MAXf_zero_nonneg _)

/-- Claim C7 witness: with reference span 10, geometry constant 1 and gear
height 7 (above half the span), the ground-effect term is exactly zero. -/
theorem compute_ground_effect_w : (Compute kGe sGe).2.lift.m_fClGe = 0 :=
  (compute_ground_effect kGe sGe (by norm_num [kGe, kZero])
      (by norm_num [kGe, kZero])).2.2.1
    (by norm_num [kGe, kZero, sGe, sZero, coeffZero])

/-- Claim C8: constructing an interpolation table with a result array whose
length does not equal the product of the axis lengths, or with a
non-monotonic axis, is rejected deterministically at construction time
(an error, never a silently accepted or truncated table). -/
theorem mk_table_rejects_invalid (aX aY aZ r1 r3 : List ℚ) :
    (r1.length ≠ aX.length → isRejected (mkLT1D aX r1) = true) ∧
    (¬ aX.Chain' (· < ·) → isRejected (mkLT1D aX r1) = true) ∧
    (r3.length ≠ aX.length * aY.length * aZ.length →
      isRejected (mkLT3D aX aY aZ r3) = true) ∧
    (¬ aX.Chain' (· < ·) → isRejected (mkLT3D aX aY aZ r3) = true) := by
  refine ⟨?_, ?_, ?_, ?_⟩ <;> intro h <;>
    simp only [mkLT1D, mkLT3D] <;> split_ifs <;> simp_all [isRejected]

/-- Claim C8 witness: a 1-D table whose 3-entry result array does not match
its 2-entry axis is rejected. -/
theorem mk_table_rejects_invalid_w :
    isRejected (mkLT1D [0, 4] [1, 2, 3]) = true :=
  (mk_table_rejects_invalid [0, 4] [] [] [1, 2, 3] []).1 (by simp)

/-- Claim C9: `Compute` writes only the fields this model owns — the member
partials, the star partial `fClStar`, and the lift field `fCLift` — and
leaves every other shared-state field and both interpolation tables (axes
and result arrays) unchanged. -/
theorem compute_frame (k : C90Consts) (s : SimState) :
    (Compute k s).2.data.dAlphaB_d = s.data.dAlphaB_d ∧
    (Compute k s).2.data.dAlphaDot_rps = s.data.dAlphaDot_rps ∧
    (Compute k s).2.data.dQs_rps = s.data.dQs_rps ∧
    (Compute k s).2.data.fDeltaF_pct = s.data.fDeltaF_pct ∧
    (Compute k s).2.data.fDfavg_pct = s.data.fDfavg_pct ∧
    (Compute k s).2.data.fKIce = s.data.fKIce ∧
    (Compute k s).2.coeff.fTcx = s.coeff.fTcx ∧
    (Compute k s).2.coeff.fCHat = s.coeff.fCHat ∧
    (Compute k s).2.coeff.fCmElev = s.coeff.fCmElev ∧
    (Compute k s).2.coeff.fTcd = s.coeff.fTcd ∧
    (Compute k s).2.coeff.fHGear = s.coeff.fHGear ∧
    (Compute k s).2.tBa = s.tBa ∧
    (Compute k s).2.tIce = s.tIce :=
  ⟨rfl, rfl, rfl, rfl, rfl, rfl, rfl, rfl, rfl, rfl, rfl, rfl, rfl⟩

/-- Claim C10: for every shared-state input, `Compute` returns `TRUE`; the
boolean validity result never takes the `FALSE` value, so no error
condition is ever reportable to the caller through the return value. -/
theorem compute_always_valid (k : C90Consts) (s : SimState) :
    (Compute k s).1 = true :=
  rfl

end FlightSim
